import Mathlib

/-!
Shallow embedding of the WebSocket client in `mcu/websocket.py`
(wake-on-mcu repository).

Bytes are modelled as natural numbers, the duplex byte stream as a record
holding the bytes still to be read (`input`), the bytes written so far
(`written`), the number of `drain` (flush) calls, and whether the stream
has been closed (`wait_closed`).  The random 4-byte masking keys produced
by `random.getrandbits(32)` are modelled as a list of keys carried by the
client and consumed one per written frame.
-/

namespace WS

/-- Opcode constants from the source (`OP_CONT` .. `OP_PONG`). -/
def OP_CONT : Nat := 0x0

def OP_TEXT : Nat := 0x1

def OP_BYTES : Nat := 0x2

def OP_CLOSE : Nat := 0x8

def OP_PING : Nat := 0x9

def OP_PONG : Nat := 0xA

/-- Close code constants from the source. -/
def CLOSE_OK : Nat := 1000

def CLOSE_TOO_BIG : Nat := 1009

/-- The abstract duplex byte stream consumed by the client
(`uasyncio.stream.Stream` in the source). -/
structure Stream where
  input : List Nat
  written : List Nat
  drains : Nat
  closed : Bool
deriving DecidableEq, Repr

/-- `stream.readexactly(n)`: return exactly `n` bytes or raise `EOFError`
(modelled as `none`) when the stream ends first. -/
def readexactly (n : Nat) (s : Stream) : Option (List Nat × Stream) :=
  if n ≤ s.input.length then
    some (s.input.take n, { s with input := s.input.drop n })
  else none

/-- `stream.write(bs)`. -/
def streamWrite (s : Stream) (bs : List Nat) : Stream :=
  { s with written := s.written ++ bs }

/-- `stream.drain()`. -/
def drain (s : Stream) : Stream :=
  { s with drains := s.drains + 1 }

/-- `struct.pack('!H', n)`: 16-bit big-endian. -/
def be16 (n : Nat) : List Nat :=
  [n / 256 % 256, n % 256]

/-- `struct.unpack('!H', l)`. -/
def un16 (l : List Nat) : Nat :=
  l.getD 0 0 * 256 + l.getD 1 0

/-- `struct.pack('!Q', n)`: 64-bit big-endian. -/
def be64 (n : Nat) : List Nat :=
  [n / 72057594037927936 % 256, n / 281474976710656 % 256,
   n / 1099511627776 % 256, n / 4294967296 % 256,
   n / 16777216 % 256, n / 65536 % 256, n / 256 % 256, n % 256]

/-- `struct.unpack('!Q', l)`. -/
def un64 (l : List Nat) : Nat :=
  l.getD 0 0 * 72057594037927936 + l.getD 1 0 * 281474976710656 +
  l.getD 2 0 * 1099511627776 + l.getD 3 0 * 4294967296 +
  l.getD 4 0 * 16777216 + l.getD 5 0 * 65536 + l.getD 6 0 * 256 + l.getD 7 0

/-- The masking comprehension `bytes(b ^ mask_bits[i % 4] for i, b in
enumerate(data))`, with the running index `i` made explicit. -/
def maskFrom (key : List Nat) (i : Nat) : List Nat → List Nat
  | [] => []
  | b :: rest => (b ^^^ key.getD (i % 4) 0) :: maskFrom key (i + 1) rest

/-- XOR-mask a payload with a 4-byte key (index starts at 0). -/
def maskBytes (key data : List Nat) : List Nat :=
  maskFrom key 0 data

/-- `WebsocketClient._write_frame(opcode, data)` as a pure function of the
mask key: the full wire bytes of one frame, or `none` for the
`length >= 2**64` `ValueError`.  `fin` and `mask` are always true in the
source. -/
def writeFrame (opcode : Nat) (data : List Nat) (maskKey : List Nat) :
    Option (List Nat) :=
  let fin := true
  let mask := true
  let length := data.length
  let byte1 := (if fin then 0x80 else 0) ||| opcode
  let byte2 := if mask then 0x80 else 0
  let header : Option (List Nat) :=
    if length < 126 then some [byte1, byte2 ||| length]
    else if length < 65536 then some ([byte1, byte2 ||| 126] ++ be16 length)
    else if length < 18446744073709551616 then
      some ([byte1, byte2 ||| 127] ++ be64 length)
    else none
  match header with
  | none => none
  | some h =>
    some (h ++ (if mask then maskKey ++ maskBytes maskKey data else data))

/-- The client session (`WebsocketClient`).  `capacity` models the largest
payload allocation that succeeds (reading more raises `MemoryError`);
`keys` models the stream of random 4-byte mask keys. -/
structure WebsocketClient where
  stream : Stream
  «open» : Bool
  capacity : Nat
  keys : List (List Nat)
deriving DecidableEq, Repr

/-- `self._write_frame(opcode, data)` acting on the client: writes the wire
bytes and consumes one mask key; the Bool is false when the source would
raise `ValueError` (nothing written in that case). -/
def writeFrameC (c : WebsocketClient) (opcode : Nat) (data : List Nat) :
    WebsocketClient × Bool :=
  match writeFrame opcode data (c.keys.headD [0, 0, 0, 0]) with
  | some bs =>
    ({ c with keys := c.keys.tail, stream := streamWrite c.stream bs }, true)
  | none => (c, false)

/-- `WebsocketClient.close(code, reason)`: no-op when already closed,
otherwise write one CLOSE frame and flip `open`.  The Bool is false when
the frame write raises. -/
def close (c : WebsocketClient) (code : Nat) (reason : List Nat) :
    WebsocketClient × Bool :=
  if c.«open» then
    match writeFrameC c OP_CLOSE (be16 code ++ reason) with
    | (c1, true) => ({ c1 with «open» := false }, true)
    | (c1, false) => (c1, false)
  else (c, true)

/-- `WebsocketClient.wait_closed()`: drain, then close the stream. -/
def wait_closed (c : WebsocketClient) : WebsocketClient :=
  { c with stream := { drain c.stream with closed := true } }

/-- Result of `_read_frame`: a decoded frame, or `EOFError` caught by
`recv`.  The payload is `none` on the `MemoryError` path, which returns
`(True, OP_CLOSE, None)`. -/
inductive ReadOutcome where
  | ok (fin : Bool) (opcode : Nat) (data : Option (List Nat))
  | eof
deriving DecidableEq, Repr

/-- The extended-length step of `_read_frame`: a 7-bit field of 126 reads a
16-bit length, 127 reads a 64-bit length, anything else is literal. -/
def readExt (len0 : Nat) (s : Stream) : Option (Nat × Stream) :=
  if len0 = 126 then (readexactly 2 s).map (fun p => (un16 p.1, p.2))
  else if len0 = 127 then (readexactly 8 s).map (fun p => (un64 p.1, p.2))
  else some (len0, s)

/-- The mask-key step of `_read_frame`: 4 bytes when the mask bit is set. -/
def readMask (mask : Bool) (s : Stream) : Option (List Nat × Stream) :=
  if mask then readexactly 4 s else some ([], s)

/-- Payload step of `_read_frame` (`try: data = await
self._stream.readexactly(length) ...`): a `length` beyond `capacity`
models the `MemoryError` branch: close with code 1009, drain, and report a
CLOSE frame; otherwise read and (if masked) unmask the payload. -/
def readFramePayload (c : WebsocketClient) (fin : Bool) (opcode : Nat)
    (mask : Bool) (maskBits : List Nat) (length : Nat) (s3 : Stream) :
    ReadOutcome × WebsocketClient :=
  if c.capacity < length then
    let p := close { c with stream := s3 } CLOSE_TOO_BIG []
    (.ok true OP_CLOSE none, { p.1 with stream := drain p.1.stream })
  else
    match readexactly length s3 with
    | none => (.eof, { c with stream := s3 })
    | some (data, s4) =>
      let out := if mask then maskBytes maskBits data else data
      (.ok fin opcode (some out), { c with stream := s4 })

/-- Mask-key step of `_read_frame`. -/
def readFrameMask (c : WebsocketClient) (fin : Bool) (opcode : Nat)
    (mask : Bool) (length : Nat) (s2 : Stream) :
    ReadOutcome × WebsocketClient :=
  match readMask mask s2 with
  | none => (.eof, { c with stream := s2 })
  | some (maskBits, s3) => readFramePayload c fin opcode mask maskBits length s3

/-- Extended-length step of `_read_frame`, given the 7-bit length field
`length = byte2 & 0x7f`. -/
def readFrameLen (c : WebsocketClient) (fin : Bool) (opcode : Nat)
    (mask : Bool) (len0 : Nat) (s1 : Stream) :
    ReadOutcome × WebsocketClient :=
  match readExt len0 s1 with
  | none => (.eof, { c with stream := s1 })
  | some (length, s2) => readFrameMask c fin opcode mask length s2

/-- `WebsocketClient._read_frame()`: read the 2-byte header, decode
FIN/opcode/MASK/length, then the length, mask and payload steps. -/
def readFrame (c : WebsocketClient) : ReadOutcome × WebsocketClient :=
  match readexactly 2 c.stream with
  | none => (.eof, c)
  | some (hdr, s1) =>
    let byte1 := hdr.getD 0 0
    let byte2 := hdr.getD 1 0
    readFrameLen c (byte1 &&& 0x80 != 0) (byte1 &&& 0x0f)
      (byte2 &&& 0x80 != 0) (byte2 &&& 0x7f) s1

/-- An application-level message returned by `recv`: `buf.decode('utf-8')`
for TEXT (modelled as the raw UTF-8 bytes) or the raw buffer for BINARY. -/
inductive Message where
  | text (s : List Nat)
  | binary (b : List Nat)
deriving DecidableEq, Repr

/-- Result of one `recv()` call.  `eos` is Python's `None` return (EOF,
CLOSE, or the while-condition failing); `unknownOp` is
`raise ValueError(opcode)` (with `None` possible); `writeErr` is a
propagated `ValueError` from `_write_frame`; `fuelOut` marks exhausted
recursion fuel. -/
inductive RecvResult where
  | msg (m : Message)
  | eos
  | unknownOp (op : Option Nat)
  | writeErr
  | fuelOut
deriving DecidableEq, Repr

/-- The body of `WebsocketClient.recv()`: the `while self.open` loop with
its `popcode`/`buf` locals, fuelled by the maximum number of frames to
process. -/
def recvLoop (fuel : Nat) (popcode : Option Nat) (buf : List Nat)
    (c : WebsocketClient) : RecvResult × WebsocketClient :=
  match fuel with
  | 0 => (.fuelOut, c)
  | fuel + 1 =>
    if c.«open» then
      match readFrame c with
      | (.eof, c1) => (.eos, { c1 with «open» := false })
      | (.ok fin opcode data, c1) =>
        let step :=
          if opcode = OP_CONT then (popcode, buf, popcode)
          else (some opcode, ([] : List Nat), some opcode)
        match step with
        | (eop, buf1, pop1) =>
          match eop with
          | none => (.unknownOp none, c1)
          | some op =>
            if op = OP_TEXT ∨ op = OP_BYTES then
              let buf2 := buf1 ++ data.getD []
              if fin then
                if op = OP_TEXT then (.msg (.text buf2), c1)
                else (.msg (.binary buf2), c1)
              else recvLoop fuel pop1 buf2 c1
            else if op = OP_CLOSE then
              match close c1 CLOSE_OK [] with
              | (c2, true) => (.eos, wait_closed c2)
              | (c2, false) => (.writeErr, c2)
            else if op = OP_PONG then
              recvLoop fuel pop1 buf1 c1
            else if op = OP_PING then
              match writeFrameC c1 OP_PONG (data.getD []) with
              | (c2, true) => recvLoop fuel pop1 buf1 { c2 with stream := drain c2.stream }
              | (c2, false) => (.writeErr, c2)
            else (.unknownOp (some op), c1)
    else (.eos, c)

/-- `WebsocketClient.recv()` with initial locals `popcode = None`,
`buf = bytearray(0)`. -/
def recv (fuel : Nat) (c : WebsocketClient) : RecvResult × WebsocketClient :=
  recvLoop fuel none [] c

/-- The argument of `WebsocketClient.send`: a `str` (carried as its UTF-8
bytes), a `bytes`, or a value of any other runtime type. -/
inductive Payload where
  | str (s : List Nat)
  | bytes (b : List Nat)
  | other
deriving DecidableEq, Repr

/-- Result of `send`: normal return, `raise TypeError()`, or a propagated
`ValueError` from `_write_frame`. -/
inductive SendResult where
  | ok
  | typeError
  | writeErr
deriving DecidableEq, Repr

/-- `WebsocketClient.send(buf)`. -/
def send (c : WebsocketClient) (buf : Payload) : SendResult × WebsocketClient :=
  if c.«open» then
    match (match buf with
           | .str s => some (OP_TEXT, s)
           | .bytes b => some (OP_BYTES, b)
           | .other => none) with
    | none => (.typeError, c)
    | some (opcode, data) =>
      match writeFrameC c opcode data with
      | (c1, true) => (.ok, { c1 with stream := drain c1.stream })
      | (c1, false) => (.writeErr, c1)
  else (.ok, c)

/-- `bytes.startswith`, on character lists. -/
def startswith : List Char → List Char → Bool
  | _, [] => true
  | [], _ :: _ => false
  | c :: cs, p :: ps => c == p && startswith cs ps

/-- Outcome of `connect` after the stream is open and the request sent:
either a session, or the `Exception('Invalid protocol header')` raise with
the stream in the state it had at that point. -/
inductive ConnectResult where
  | session (c : WebsocketClient)
  | protocolError (s : Stream)
deriving DecidableEq, Repr

/-- The response-validation step of `connect`: the status line (CRLF already
stripped) must start with `HTTP/1.1 101 `, else the exception propagates
with the stream untouched (the source does not close it). -/
def connectFinish (s : Stream) (statusLine : List Char) (cap : Nat)
    (keys : List (List Nat)) : ConnectResult :=
  if startswith statusLine ("HTTP/1.1 101 ".toList) then
    .session { stream := s, «open» := true, capacity := cap, keys := keys }
  else .protocolError s

/-- Server-side frame encoder (test harness for the decoder): the wire bytes
a server produces for an unmasked frame, fin/opcode/length field encoded
exactly as `_read_frame` expects. -/
def serverFrame (fin : Bool) (opcode : Nat) (data : List Nat) : List Nat :=
  let byte1 := (if fin then 0x80 else 0) ||| opcode
  if data.length < 126 then byte1 :: data.length :: data
  else if data.length < 65536 then byte1 :: 126 :: (be16 data.length ++ data)
  else byte1 :: 127 :: (be64 data.length ++ data)


/-! ### Helper lemmas -/

theorem readexactly_append (s : Stream) (l r : List Nat) (n : Nat)
    (h : l.length = n) :
    readexactly n { s with input := l ++ r } = some (l, { s with input := r }) := by
  subst h
  simp [readexactly, List.take_left, List.drop_left]

theorem readexactly_two (s : Stream) (b1 b2 : Nat) (t : List Nat) :
    readexactly 2 { s with input := b1 :: b2 :: t } =
      some ([b1, b2], { s with input := t }) := by
  simp [readexactly]

theorem lor128_and128 : ∀ x < 128, (128 ||| x) &&& 128 = 128 := by decide

theorem lor128_and127 : ∀ x < 128, (128 ||| x) &&& 127 = x := by decide

theorem lor128_and15 : ∀ x < 16, (128 ||| x) &&& 15 = x := by decide

theorem lor0_and128 : ∀ x < 16, (0 ||| x) &&& 128 = 0 := by decide

theorem lor0_and15 : ∀ x < 16, (0 ||| x) &&& 15 = x := by decide

theorem small_and128 : ∀ x < 126, x &&& 128 = 0 := by decide

theorem small_and127 : ∀ x < 126, x &&& 127 = x := by decide

theorem be16_length (n : Nat) : (be16 n).length = 2 := rfl

theorem be64_length (n : Nat) : (be64 n).length = 8 := rfl

theorem un16_be16 (n : Nat) (h : n < 65536) : un16 (be16 n) = n := by
  simp [be16, un16]
  omega

theorem un64_be64 (n : Nat) (h : n < 18446744073709551616) :
    un64 (be64 n) = n := by
  simp [be64, un64]
  omega

theorem maskFrom_length (key data : List Nat) :
    ∀ i, (maskFrom key i data).length = data.length := by
  induction data with
  | nil => intro i; rfl
  | cons b rest ih => intro i; simp [maskFrom, ih]

theorem maskBytes_length (key data : List Nat) :
    (maskBytes key data).length = data.length :=
  maskFrom_length key data 0

theorem maskFrom_maskFrom (key data : List Nat) :
    ∀ i, maskFrom key i (maskFrom key i data) = data := by
  induction data with
  | nil => intro i; rfl
  | cons b rest ih => intro i; simp [maskFrom, ih, Nat.xor_cancel_right]

theorem maskBytes_maskBytes (key data : List Nat) :
    maskBytes key (maskBytes key data) = data :=
  maskFrom_maskFrom key data 0


theorem and126_128 : (126 : Nat) &&& 128 = 0 := by decide

theorem and126_127 : (126 : Nat) &&& 127 = 126 := by decide

theorem and127_128 : (127 : Nat) &&& 128 = 0 := by decide

theorem and127_127 : (127 : Nat) &&& 127 = 127 := by decide

theorem op_and128 : ∀ x < 16, x &&& 128 = 0 := by decide

theorem op_and15 : ∀ x < 16, x &&& 15 = x := by decide

/-- FIN-bit parsing: `bool(byte1 & 0x80)` recovers the fin flag the encoder
put into byte 1. -/
theorem finbit (fin : Bool) (op : Nat) (hop : op < 16) :
    (((if fin then 128 else 0) ||| op) &&& 128 != 0) = fin := by
  cases fin
  · simp [op_and128 op hop]
  · simp [lor128_and128 op (by omega)]

/-- Opcode parsing: `byte1 & 0x0f` recovers the opcode. -/
theorem finop (fin : Bool) (op : Nat) (hop : op < 16) :
    ((if fin then 128 else 0) ||| op) &&& 15 = op := by
  cases fin
  · simp [op_and15 op hop]
  · simp [lor128_and15 op hop]

theorem readExt_lit (len0 : Nat) (s : Stream) (h6 : len0 ≠ 126)
    (h7 : len0 ≠ 127) : readExt len0 s = some (len0, s) := by
  simp [readExt, h6, h7]

theorem readExt_16 (s : Stream) (L : Nat) (t : List Nat) (hL : L < 65536) :
    readExt 126 { s with input := be16 L ++ t } =
      some (L, { s with input := t }) := by
  unfold readExt
  rw [if_pos rfl, readexactly_append s (be16 L) t 2 (be16_length L)]
  simp [un16_be16 L hL]

theorem readExt_64 (s : Stream) (L : Nat) (t : List Nat)
    (hL : L < 18446744073709551616) :
    readExt 127 { s with input := be64 L ++ t } =
      some (L, { s with input := t }) := by
  unfold readExt
  rw [if_neg (by omega), if_pos rfl,
    readexactly_append s (be64 L) t 8 (be64_length L)]
  simp [un64_be64 L hL]

theorem readMask_false (s : Stream) : readMask false s = some ([], s) := rfl

theorem readMask_true (s : Stream) (key t : List Nat) (hk : key.length = 4) :
    readMask true { s with input := key ++ t } =
      some (key, { s with input := t }) := by
  unfold readMask
  rw [if_pos rfl, readexactly_append s key t 4 hk]

theorem readFrameLen_ext (c : WebsocketClient) (fin : Bool) (opcode : Nat)
    (mask : Bool) (len0 : Nat) (s1 : Stream) (length : Nat) (s2 : Stream)
    (h : readExt len0 s1 = some (length, s2)) :
    readFrameLen c fin opcode mask len0 s1 =
      readFrameMask c fin opcode mask length s2 := by
  unfold readFrameLen
  rw [h]

theorem readFrameMask_some (c : WebsocketClient) (fin : Bool) (opcode : Nat)
    (mask : Bool) (length : Nat) (s2 : Stream) (maskBits : List Nat)
    (s3 : Stream) (h : readMask mask s2 = some (maskBits, s3)) :
    readFrameMask c fin opcode mask length s2 =
      readFramePayload c fin opcode mask maskBits length s3 := by
  unfold readFrameMask
  rw [h]

theorem readFramePayload_ok (c : WebsocketClient) (fin : Bool) (opcode : Nat)
    (mask : Bool) (maskBits : List Nat) (s : Stream) (data t : List Nat)
    (hcap : data.length ≤ c.capacity) :
    readFramePayload c fin opcode mask maskBits data.length
      { s with input := data ++ t } =
      (.ok fin opcode (some (if mask then maskBytes maskBits data else data)),
       { c with stream := { s with input := t } }) := by
  unfold readFramePayload
  rw [if_neg (Nat.not_lt.mpr hcap), readexactly_append s data t data.length rfl]

theorem readFrame_cons (s : Stream) (opn : Bool) (cap : Nat)
    (keys : List (List Nat)) (b1 b2 : Nat) (t : List Nat) :
    readFrame { stream := { s with input := b1 :: b2 :: t }, «open» := opn,
                capacity := cap, keys := keys } =
      readFrameLen { stream := { s with input := b1 :: b2 :: t },
                     «open» := opn, capacity := cap, keys := keys }
        (b1 &&& 128 != 0) (b1 &&& 15) (b2 &&& 128 != 0) (b2 &&& 127)
        { s with input := t } := by
  unfold readFrame
  rw [readexactly_two]
  rfl

/-- Decoding one unmasked server frame: `_read_frame` recovers exactly the
fin flag, opcode and payload that `serverFrame` encoded, consuming exactly
the frame's bytes. -/
theorem readFrame_server (fin : Bool) (op : Nat) (data rest : List Nat)
    (s : Stream) (cap : Nat) (opn : Bool) (keys : List (List Nat))
    (hop : op < 16) (hlen : data.length < 18446744073709551616)
    (hcap : data.length ≤ cap) :
    readFrame { stream := { s with input := serverFrame fin op data ++ rest },
                «open» := opn, capacity := cap, keys := keys } =
      (.ok fin op (some data),
       { stream := { s with input := rest }, «open» := opn, capacity := cap,
         keys := keys }) := by
  rcases Nat.lt_or_ge data.length 126 with h1 | h1
  · have hb1 : serverFrame fin op data ++ rest =
        ((if fin then 128 else 0) ||| op) :: data.length :: (data ++ rest) := by
      simp [serverFrame, h1]
    rw [hb1, readFrame_cons, finbit fin op hop, finop fin op hop,
      small_and128 data.length h1, small_and127 data.length h1,
      show ((0 : Nat) != 0) = false from rfl,
      readFrameLen_ext _ _ _ _ _ _ _ _
        (readExt_lit data.length _ (by omega) (by omega)),
      readFrameMask_some _ _ _ _ _ _ _ _ (readMask_false _),
      readFramePayload_ok _ _ _ _ _ _ _ _ hcap]
    rfl
  · rcases Nat.lt_or_ge data.length 65536 with h2 | h2
    · have hb1 : serverFrame fin op data ++ rest =
          ((if fin then 128 else 0) ||| op) :: 126 ::
            (be16 data.length ++ (data ++ rest)) := by
        simp only [serverFrame]
        rw [if_neg (by omega : ¬ data.length < 126), if_pos h2]
        simp
      rw [hb1, readFrame_cons, finbit fin op hop, finop fin op hop,
        and126_128, and126_127, show ((0 : Nat) != 0) = false from rfl,
        readFrameLen_ext _ _ _ _ _ _ _ _ (readExt_16 _ data.length _ h2),
        readFrameMask_some _ _ _ _ _ _ _ _ (readMask_false _),
        readFramePayload_ok _ _ _ _ _ _ _ _ hcap]
      rfl
    · have hb1 : serverFrame fin op data ++ rest =
          ((if fin then 128 else 0) ||| op) :: 127 ::
            (be64 data.length ++ (data ++ rest)) := by
        simp only [serverFrame]
        rw [if_neg (by omega : ¬ data.length < 126),
          if_neg (by omega : ¬ data.length < 65536)]
        simp
      rw [hb1, readFrame_cons, finbit fin op hop, finop fin op hop,
        and127_128, and127_127, show ((0 : Nat) != 0) = false from rfl,
        readFrameLen_ext _ _ _ _ _ _ _ _ (readExt_64 _ data.length _ hlen),
        readFrameMask_some _ _ _ _ _ _ _ _ (readMask_false _),
        readFramePayload_ok _ _ _ _ _ _ _ _ hcap]
      rfl

theorem and254_128 : (254 : Nat) &&& 128 = 128 := by decide

theorem and254_127 : (254 : Nat) &&& 127 = 126 := by decide

theorem and255_128 : (255 : Nat) &&& 128 = 128 := by decide

theorem and255_127 : (255 : Nat) &&& 127 = 127 := by decide

theorem and130_128 : (130 : Nat) &&& 128 = 128 := by decide

theorem and130_15 : (130 : Nat) &&& 15 = 2 := by decide

/-- `_write_frame` for payloads under 126 bytes: 2-byte header with the
literal length, then the mask key, then the masked payload. -/
theorem writeFrame_small (op : Nat) (data key : List Nat)
    (h : data.length < 126) :
    writeFrame op data key =
      some ((128 ||| op) :: (128 ||| data.length) ::
        (key ++ maskBytes key data)) := by
  simp only [writeFrame]
  rw [if_pos h]
  simp

/-- `_write_frame` for payloads of 126..65535 bytes: the 126 escape and a
16-bit big-endian length. -/
theorem writeFrame_med (op : Nat) (data key : List Nat)
    (h1 : ¬ data.length < 126) (h2 : data.length < 65536) :
    writeFrame op data key =
      some ((128 ||| op) :: 254 ::
        (be16 data.length ++ (key ++ maskBytes key data))) := by
  simp only [writeFrame]
  rw [if_neg h1, if_pos h2]
  simp

/-- `_write_frame` for payloads of 65536..2^64-1 bytes: the 127 escape and
a 64-bit big-endian length. -/
theorem writeFrame_big (op : Nat) (data key : List Nat)
    (h1 : ¬ data.length < 126) (h2 : ¬ data.length < 65536)
    (h3 : data.length < 18446744073709551616) :
    writeFrame op data key =
      some ((128 ||| op) :: 255 ::
        (be64 data.length ++ (key ++ maskBytes key data))) := by
  simp only [writeFrame]
  rw [if_neg h1, if_neg h2, if_pos h3]
  simp

/-- `_write_frame` succeeds for every payload shorter than 2^64 bytes. -/
theorem writeFrame_some (op : Nat) (data key : List Nat)
    (h : data.length < 18446744073709551616) :
    ∃ w, writeFrame op data key = some w := by
  rcases Nat.lt_or_ge data.length 126 with h1 | h1
  · exact ⟨_, writeFrame_small op data key h1⟩
  · rcases Nat.lt_or_ge data.length 65536 with h2 | h2
    · exact ⟨_, writeFrame_med op data key (by omega) h2⟩
    · exact ⟨_, writeFrame_big op data key (by omega) (by omega) h⟩

/-- `close` on an open session: writes one CLOSE frame and flips `open`. -/
theorem close_open (c : WebsocketClient) (code : Nat) (reason : List Nat)
    (w : List Nat) (hopen : c.«open» = true)
    (hw : writeFrame OP_CLOSE (be16 code ++ reason)
      (c.keys.headD [0, 0, 0, 0]) = some w) :
    close c code reason =
      ({ c with «open» := false, keys := c.keys.tail,
                stream := streamWrite c.stream w }, true) := by
  unfold close writeFrameC
  rw [hopen, hw]
  rfl

/-- `close` on an already-closed session is a no-op. -/
theorem close_closed (c : WebsocketClient) (code : Nat) (reason : List Nat)
    (h : c.«open» = false) : close c code reason = (c, true) := by
  unfold close
  rw [h]
  rfl

/-- One successful `_read_frame` inside the `recv` loop: the loop body
applied to the decoded frame. -/
theorem recvLoop_ok (fuel : Nat) (popcode : Option Nat) (buf : List Nat)
    (c : WebsocketClient) (fin : Bool) (opcode : Nat)
    (data : Option (List Nat)) (c1 : WebsocketClient)
    (hopen : c.«open» = true)
    (h : readFrame c = (.ok fin opcode data, c1)) :
    recvLoop (fuel + 1) popcode buf c =
      (match (if opcode = OP_CONT then (popcode, buf, popcode)
              else (some opcode, ([] : List Nat), some opcode)) with
       | (eop, buf1, pop1) =>
         match eop with
         | none => (.unknownOp none, c1)
         | some op =>
           if op = OP_TEXT ∨ op = OP_BYTES then
             let buf2 := buf1 ++ data.getD []
             if fin then
               if op = OP_TEXT then (.msg (.text buf2), c1)
               else (.msg (.binary buf2), c1)
             else recvLoop fuel pop1 buf2 c1
           else if op = OP_CLOSE then
             match close c1 CLOSE_OK [] with
             | (c2, true) => (.eos, wait_closed c2)
             | (c2, false) => (.writeErr, c2)
           else if op = OP_PONG then
             recvLoop fuel pop1 buf1 c1
           else if op = OP_PING then
             match writeFrameC c1 OP_PONG (data.getD []) with
             | (c2, true) =>
               recvLoop fuel pop1 buf1 { c2 with stream := drain c2.stream }
             | (c2, false) => (.writeErr, c2)
           else (.unknownOp (some op), c1)) := by
  conv_lhs => rw [recvLoop]
  rw [hopen, h]
  rfl

/-! ### Claim theorems -/

/-- Claim C9: masking is self-inverse.  For every 4-byte mask key and every
payload of any length (multiples of 4 or not), applying the byte-for-byte
XOR masking with `mask_key[i mod 4]` twice reproduces the payload:
`_write_frame` masks and `_read_frame` unmasks with this same operation. -/
theorem C9_masking_self_inverse (key data : List Nat) (hkey : key.length = 4) :
    maskBytes key (maskBytes key data) = data :=
  maskBytes_maskBytes key data

theorem C9_masking_self_inverse_witness :
    maskBytes [1, 2, 3, 4] (maskBytes [1, 2, 3, 4] [5, 6, 7, 8, 9]) =
      [5, 6, 7, 8, 9] :=
  C9_masking_self_inverse [1, 2, 3, 4] [5, 6, 7, 8, 9] rfl

/-- Claim C1: frame round-trip.  Encoding any payload with `_write_frame`
succeeds for lengths below 2^64 and decoding the produced wire bytes with
`_read_frame` (which unmasks exactly as a server would) returns the
original payload with `fin = true` and the same opcode; moreover the
length field uses the right variant: a literal 7-bit length for
`L < 126` (second byte `0x80 ||| L`), the escape 126 (second byte
`254 = 0x80 ||| 126`) plus 16-bit big-endian length for `126 <= L < 2^16`,
and the escape 127 (second byte `255 = 0x80 ||| 127`) plus 64-bit
big-endian length for `2^16 <= L < 2^64`. -/
theorem C1_frame_roundtrip (op : Nat) (data key rest : List Nat) (s : Stream)
    (cap : Nat) (opn : Bool) (keys : List (List Nat))
    (hop : op < 16) (hkey : key.length = 4)
    (hlen : data.length < 18446744073709551616) (hcap : data.length ≤ cap) :
    ∃ wire,
      writeFrame op data key = some wire ∧
      readFrame { stream := { s with input := wire ++ rest }, «open» := opn,
                  capacity := cap, keys := keys } =
        (.ok true op (some data),
         { stream := { s with input := rest }, «open» := opn,
           capacity := cap, keys := keys }) ∧
      (data.length < 126 →
        wire = (128 ||| op) :: (128 ||| data.length) ::
          (key ++ maskBytes key data)) ∧
      (126 ≤ data.length → data.length < 65536 →
        wire = (128 ||| op) :: 254 ::
          (be16 data.length ++ (key ++ maskBytes key data))) ∧
      (65536 ≤ data.length →
        wire = (128 ||| op) :: 255 ::
          (be64 data.length ++ (key ++ maskBytes key data))) := by
  rcases Nat.lt_or_ge data.length 126 with h1 | h1
  · refine ⟨_, writeFrame_small op data key h1, ?_, fun _ => rfl,
      fun h12 _ => absurd h1 (by omega), fun h2 => absurd h1 (by omega)⟩
    have hshape : ((128 ||| op) :: (128 ||| data.length) ::
        (key ++ maskBytes key data)) ++ rest =
        (128 ||| op) :: (128 ||| data.length) ::
          (key ++ (maskBytes key data ++ rest)) := by
      simp
    rw [hshape, readFrame_cons, lor128_and128 op (by omega),
      lor128_and15 op hop, lor128_and128 data.length (by omega),
      lor128_and127 data.length (by omega),
      show ((128 : Nat) != 0) = true from rfl,
      readFrameLen_ext _ _ _ _ _ _ _ _
        (readExt_lit data.length _ (by omega) (by omega)),
      readFrameMask_some _ _ _ _ _ _ _ _ (readMask_true _ key _ hkey),
      show data.length = (maskBytes key data).length from
        (maskBytes_length key data).symm,
      readFramePayload_ok _ _ _ _ _ _ _ _
        (by rw [maskBytes_length]; exact hcap)]
    simp [maskBytes_maskBytes]
  · rcases Nat.lt_or_ge data.length 65536 with h2 | h2
    · refine ⟨_, writeFrame_med op data key (by omega) h2,
        ?_, fun h => absurd h (by omega), fun _ _ => rfl,
        fun h => absurd h (by omega)⟩
      have hshape : ((128 ||| op) :: 254 ::
          (be16 data.length ++ (key ++ maskBytes key data))) ++ rest =
          (128 ||| op) :: 254 ::
            (be16 data.length ++ (key ++ (maskBytes key data ++ rest))) := by
        simp
      rw [hshape, readFrame_cons, lor128_and128 op (by omega),
        lor128_and15 op hop, and254_128, and254_127,
        show ((128 : Nat) != 0) = true from rfl,
        readFrameLen_ext _ _ _ _ _ _ _ _ (readExt_16 _ data.length _ h2),
        readFrameMask_some _ _ _ _ _ _ _ _ (readMask_true _ key _ hkey),
        show data.length = (maskBytes key data).length from
          (maskBytes_length key data).symm,
        readFramePayload_ok _ _ _ _ _ _ _ _
          (by rw [maskBytes_length]; exact hcap)]
      simp [maskBytes_maskBytes]
    · refine ⟨_, writeFrame_big op data key (by omega) (by omega) hlen,
        ?_, fun h => absurd h (by omega), fun h _ => absurd h (by omega),
        fun _ => rfl⟩
      have hshape : ((128 ||| op) :: 255 ::
          (be64 data.length ++ (key ++ maskBytes key data))) ++ rest =
          (128 ||| op) :: 255 ::
            (be64 data.length ++ (key ++ (maskBytes key data ++ rest))) := by
        simp
      rw [hshape, readFrame_cons, lor128_and128 op (by omega),
        lor128_and15 op hop, and255_128, and255_127,
        show ((128 : Nat) != 0) = true from rfl,
        readFrameLen_ext _ _ _ _ _ _ _ _ (readExt_64 _ data.length _ hlen),
        readFrameMask_some _ _ _ _ _ _ _ _ (readMask_true _ key _ hkey),
        show data.length = (maskBytes key data).length from
          (maskBytes_length key data).symm,
        readFramePayload_ok _ _ _ _ _ _ _ _
          (by rw [maskBytes_length]; exact hcap)]
      simp [maskBytes_maskBytes]

theorem C1_frame_roundtrip_witness :
    ∃ wire, writeFrame OP_TEXT [5, 6, 7] [1, 2, 3, 4] = some wire ∧
      readFrame { stream := { input := wire ++ [9, 9], written := [],
                              drains := 0, closed := false },
                  «open» := true, capacity := 3, keys := [] } =
        (.ok true OP_TEXT (some [5, 6, 7]),
         { stream := { input := [9, 9], written := [], drains := 0,
                       closed := false },
           «open» := true, capacity := 3, keys := [] }) := by
  obtain ⟨wire, hw, hr, -, -, -⟩ := C1_frame_roundtrip OP_TEXT [5, 6, 7]
    [1, 2, 3, 4] [9, 9]
    { input := [], written := [], drains := 0, closed := false } 3 true []
    (by decide) rfl (by decide) (by decide)
  exact ⟨wire, hw, hr⟩

/-- Claim C10: a CONTINUATION frame arriving when no fragmentation
sequence is open within the `recv` call inherits `popcode = None`, so the
dispatch falls through every branch and `recv` raises
`ValueError(None)` — it neither yields a message nor silently drops the
frame. -/
theorem C10_continuation_without_sequence (fin : Bool) (d rest : List Nat)
    (s : Stream) (cap : Nat) (keys : List (List Nat)) (fuel : Nat)
    (hd : d.length ≤ cap) (hld : d.length < 18446744073709551616) :
    recv (fuel + 1)
      { stream := { s with input := serverFrame fin OP_CONT d ++ rest },
        «open» := true, capacity := cap, keys := keys } =
      (.unknownOp none,
       { stream := { s with input := rest }, «open» := true,
         capacity := cap, keys := keys }) := by
  unfold recv
  rw [recvLoop_ok _ _ _ _ _ _ _ _ rfl
    (readFrame_server fin OP_CONT d rest s cap true keys (by decide) hld hd)]
  rfl

theorem C10_continuation_without_sequence_witness :
    recv 1 { stream := { input := serverFrame true OP_CONT [9], written := [],
                         drains := 0, closed := false },
             «open» := true, capacity := 5, keys := [] } =
      (.unknownOp none,
       { stream := { input := [], written := [], drains := 0,
                     closed := false },
         «open» := true, capacity := 5, keys := [] }) := by
  have h := C10_continuation_without_sequence true [9] [] 
    { input := [], written := [], drains := 0, closed := false } 5 [] 0
    (by decide) (by decide)
  simpa using h

/-- Loop step: a TEXT frame with `fin = false` starts a new buffer with its
payload and continues the loop with sequence opcode TEXT. -/
theorem recvLoop_text_start (fuel : Nat) (popcode : Option Nat)
    (buf : List Nat) (c : WebsocketClient) (p : List Nat)
    (c1 : WebsocketClient) (hopen : c.«open» = true)
    (h : readFrame c = (.ok false OP_TEXT (some p), c1)) :
    recvLoop (fuel + 1) popcode buf c = recvLoop fuel (some OP_TEXT) p c1 := by
  rw [recvLoop_ok fuel popcode buf c false OP_TEXT (some p) c1 hopen h]
  rfl

/-- Loop step: a CONTINUATION frame with `fin = false` while the sequence
opcode is TEXT appends its payload and continues the loop. -/
theorem recvLoop_cont_text (fuel : Nat) (buf : List Nat)
    (c : WebsocketClient) (p : List Nat) (c1 : WebsocketClient)
    (hopen : c.«open» = true)
    (h : readFrame c = (.ok false OP_CONT (some p), c1)) :
    recvLoop (fuel + 1) (some OP_TEXT) buf c =
      recvLoop fuel (some OP_TEXT) (buf ++ p) c1 := by
  rw [recvLoop_ok fuel (some OP_TEXT) buf c false OP_CONT (some p) c1 hopen h]
  rfl

/-- Loop step: a CONTINUATION frame with `fin = true` while the sequence
opcode is TEXT appends its payload and returns the TEXT message. -/
theorem recvLoop_cont_text_fin (fuel : Nat) (buf : List Nat)
    (c : WebsocketClient) (p : List Nat) (c1 : WebsocketClient)
    (hopen : c.«open» = true)
    (h : readFrame c = (.ok true OP_CONT (some p), c1)) :
    recvLoop (fuel + 1) (some OP_TEXT) buf c =
      (.msg (.text (buf ++ p)), c1) := by
  rw [recvLoop_ok fuel (some OP_TEXT) buf c true OP_CONT (some p) c1 hopen h]
  rfl

/-- Claim C2: fragmented reassembly.  A TEXT frame with `fin = false`
carrying `p1`, a CONTINUATION with `fin = false` carrying `p2`, and a
CONTINUATION with `fin = true` carrying `p3` make one `recv` call return
exactly one TEXT message that is `p1 ++ p2 ++ p3`, in arrival order. -/
theorem C2_fragmented_reassembly (p1 p2 p3 rest : List Nat) (s : Stream)
    (cap : Nat) (keys : List (List Nat))
    (hc1 : p1.length ≤ cap) (hc2 : p2.length ≤ cap) (hc3 : p3.length ≤ cap)
    (hl1 : p1.length < 18446744073709551616)
    (hl2 : p2.length < 18446744073709551616)
    (hl3 : p3.length < 18446744073709551616) :
    recv 3 { stream := { s with
                         input := serverFrame false OP_TEXT p1 ++
                                    (serverFrame false OP_CONT p2 ++
                                      (serverFrame true OP_CONT p3 ++ rest)) },
             «open» := true, capacity := cap, keys := keys } =
      (.msg (.text (p1 ++ p2 ++ p3)),
       { stream := { s with input := rest }, «open» := true,
         capacity := cap, keys := keys }) := by
  unfold recv
  rw [recvLoop_text_start 2 _ _ _ _ _ rfl
      (readFrame_server false OP_TEXT p1 _ s cap true keys (by decide) hl1 hc1),
    recvLoop_cont_text 1 _ _ _ _ rfl
      (readFrame_server false OP_CONT p2 _ s cap true keys (by decide) hl2 hc2),
    recvLoop_cont_text_fin 0 _ _ _ _ rfl
      (readFrame_server true OP_CONT p3 _ s cap true keys (by decide) hl3 hc3),
    List.append_assoc]

theorem C2_fragmented_reassembly_witness :
    recv 3 { stream := { input := serverFrame false OP_TEXT [72] ++
                                    (serverFrame false OP_CONT [105] ++
                                      (serverFrame true OP_CONT [33] ++ [])),
                         written := [], drains := 0, closed := false },
             «open» := true, capacity := 1, keys := [] } =
      (.msg (.text [72, 105, 33]),
       { stream := { input := [], written := [], drains := 0,
                     closed := false },
         «open» := true, capacity := 1, keys := [] }) := by
  have h := C2_fragmented_reassembly [72] [105] [33] []
    { input := [], written := [], drains := 0, closed := false } 1 []
    (by decide) (by decide) (by decide) (by decide) (by decide) (by decide)
  simpa using h

/-- Amended claim C4: on receiving a CLOSE frame from the peer (with any
payload, so with any peer close code or none), `recv` echoes one CLOSE
frame whose code is always 1000 (`close()` is called with its default,
the peer's code is ignored), marks the session closed, drains the stream
once and releases it (`wait_closed`), and returns end-of-stream. -/
theorem C4_close_reply_always_1000 (pd rest : List Nat) (s : Stream)
    (cap : Nat) (k : List Nat) (ks : List (List Nat)) (fuel : Nat)
    (hpd : pd.length ≤ cap) (hlpd : pd.length < 18446744073709551616) :
    ∃ w, writeFrame OP_CLOSE (be16 CLOSE_OK) k = some w ∧
      recv (fuel + 1)
        { stream := { s with input := serverFrame true OP_CLOSE pd ++ rest },
          «open» := true, capacity := cap, keys := k :: ks } =
        (.eos, { stream := { input := rest, written := s.written ++ w,
                             drains := s.drains + 1, closed := true },
                 «open» := false, capacity := cap, keys := ks }) := by
  obtain ⟨w, hw⟩ := writeFrame_some OP_CLOSE (be16 CLOSE_OK) k (by decide)
  have hw2 : writeFrame OP_CLOSE (be16 CLOSE_OK ++ [])
      ((k :: ks).headD [0, 0, 0, 0]) = some w := by simpa using hw
  refine ⟨w, hw, ?_⟩
  unfold recv
  rw [recvLoop_ok _ _ _ _ _ _ _ _ rfl
    (readFrame_server true OP_CLOSE pd rest s cap true (k :: ks)
      (by decide) hlpd hpd)]
  rw [close_open _ CLOSE_OK [] w rfl hw2]
  rfl

theorem C4_close_reply_always_1000_witness :
    ∃ w, writeFrame OP_CLOSE (be16 CLOSE_OK) [0, 0, 0, 0] = some w ∧
      recv 1 { stream := { input := serverFrame true OP_CLOSE [3, 233],
                           written := [], drains := 0, closed := false },
               «open» := true, capacity := 9, keys := [[0, 0, 0, 0]] } =
        (.eos, { stream := { input := [], written := [] ++ w,
                             drains := 0 + 1, closed := true },
                 «open» := false, capacity := 9, keys := [] }) := by
  have h := C4_close_reply_always_1000 [3, 233] []
    { input := [], written := [], drains := 0, closed := false } 9
    [0, 0, 0, 0] [] 0 (by decide) (by decide)
  simpa using h

/-- Claim C6: oversized payload.  A header declaring a 64-bit length `N`
beyond the session capacity (byte 1 = `0x82`: fin + BINARY, byte 2 = 127)
makes `_read_frame` hit the `MemoryError` branch: the session writes one
CLOSE frame carrying code 1009, drains, and the `recv` call returns
end-of-stream — never a message and never an error. -/
theorem C6_oversized_payload (N : Nat) (rest : List Nat) (s : Stream)
    (cap : Nat) (k : List Nat) (ks : List (List Nat)) (fuel : Nat)
    (hcap : cap < N) (hN : N < 18446744073709551616) :
    ∃ w, writeFrame OP_CLOSE (be16 CLOSE_TOO_BIG) k = some w ∧
      recv (fuel + 1)
        { stream := { s with input := 130 :: 127 :: (be64 N ++ rest) },
          «open» := true, capacity := cap, keys := k :: ks } =
        (.eos, { stream := { input := rest, written := s.written ++ w,
                             drains := s.drains + 2, closed := true },
                 «open» := false, capacity := cap, keys := ks }) := by
  obtain ⟨w, hw⟩ := writeFrame_some OP_CLOSE (be16 CLOSE_TOO_BIG) k (by decide)
  have hw2 : writeFrame OP_CLOSE (be16 CLOSE_TOO_BIG ++ [])
      ((k :: ks).headD [0, 0, 0, 0]) = some w := by simpa using hw
  refine ⟨w, hw, ?_⟩
  have hread : readFrame
      { stream := { s with input := 130 :: 127 :: (be64 N ++ rest) },
        «open» := true, capacity := cap, keys := k :: ks } =
      (.ok true OP_CLOSE none,
       { stream := { input := rest, written := s.written ++ w,
                     drains := s.drains + 1, closed := s.closed },
         «open» := false, capacity := cap, keys := ks }) := by
    rw [readFrame_cons, and130_128, and130_15, and127_128, and127_127,
      show ((128 : Nat) != 0) = true from rfl,
      show ((0 : Nat) != 0) = false from rfl,
      readFrameLen_ext _ _ _ _ _ _ _ _ (readExt_64 _ N _ hN),
      readFrameMask_some _ _ _ _ _ _ _ _ (readMask_false _)]
    unfold readFramePayload
    rw [if_pos hcap, close_open _ CLOSE_TOO_BIG [] w rfl hw2]
    rfl
  unfold recv
  rw [recvLoop_ok fuel _ _ _ _ _ _ _ rfl hread,
    close_closed _ CLOSE_OK [] rfl]
  rfl

theorem C6_oversized_payload_witness :
    ∃ w, writeFrame OP_CLOSE (be16 CLOSE_TOO_BIG) [0, 0, 0, 0] = some w ∧
      recv 1 { stream := { input := 130 :: 127 :: (be64 1048576 ++ []),
                           written := [], drains := 0, closed := false },
               «open» := true, capacity := 100, keys := [[0, 0, 0, 0]] } =
        (.eos, { stream := { input := [], written := [] ++ w,
                             drains := 0 + 2, closed := true },
                 «open» := false, capacity := 100, keys := [] }) := by
  have h := C6_oversized_payload 1048576 []
    { input := [], written := [], drains := 0, closed := false } 100
    [0, 0, 0, 0] [] 0 (by decide) (by decide)
  simpa using h

/-- Claim C7: close idempotence.  On an open session, `close` writes
exactly one CLOSE frame and flips `open` to false; calling `close` again
on the result is a no-op (same state, nothing further written), and every
`close` on a session whose `open` is already false is a no-op. -/
theorem C7_close_idempotent (c : WebsocketClient) (code code2 : Nat)
    (reason reason2 : List Nat) (hopen : c.«open» = true)
    (hlen : 2 + reason.length < 18446744073709551616) :
    ∃ w, writeFrame OP_CLOSE (be16 code ++ reason)
        (c.keys.headD [0, 0, 0, 0]) = some w ∧
      close c code reason =
        ({ c with «open» := false, keys := c.keys.tail,
                  stream := streamWrite c.stream w }, true) ∧
      close (close c code reason).1 code2 reason2 =
        ((close c code reason).1, true) ∧
      ∀ c2 : WebsocketClient, c2.«open» = false →
        close c2 code2 reason2 = (c2, true) := by
  obtain ⟨w, hw⟩ := writeFrame_some OP_CLOSE (be16 code ++ reason)
    (c.keys.headD [0, 0, 0, 0]) (by simp [be16]; omega)
  have h1 := close_open c code reason w hopen hw
  refine ⟨w, hw, h1, ?_, fun c2 h => close_closed c2 code2 reason2 h⟩
  rw [h1]
  exact close_closed _ code2 reason2 rfl

theorem C7_close_idempotent_witness :
    close (close { stream := { input := [], written := [], drains := 0,
                               closed := false },
                   «open» := true, capacity := 5,
                   keys := [[0, 0, 0, 0]] } 1000 []).1 1000 [] =
      ((close { stream := { input := [], written := [], drains := 0,
                            closed := false },
                «open» := true, capacity := 5,
                keys := [[0, 0, 0, 0]] } 1000 []).1, true) ∧
    (close { stream := { input := [], written := [], drains := 0,
                         closed := false },
             «open» := true, capacity := 5,
             keys := [[0, 0, 0, 0]] } 1000 []).1.«open» = false := by
  obtain ⟨w, hw, h1, h2, h3⟩ := C7_close_idempotent
    { stream := { input := [], written := [], drains := 0, closed := false },
      «open» := true, capacity := 5, keys := [[0, 0, 0, 0]] }
    1000 1000 [] [] rfl (by decide)
  exact ⟨h2, by rw [h1]⟩

/-- Claim C8: the `send` contract.  A `str` payload is written as one TEXT
frame and a `bytes` payload as one BINARY frame (masked, then drained);
any other payload kind raises `TypeError`; and when the session is already
closed, `send` returns immediately, writing nothing and changing no
state. -/
theorem C8_send_contract (c : WebsocketClient) (sdata bdata : List Nat)
    (hs : sdata.length < 18446744073709551616)
    (hb : bdata.length < 18446744073709551616) :
    (c.«open» = false → ∀ p, send c p = (.ok, c)) ∧
    (c.«open» = true →
      ∃ w, writeFrame OP_TEXT sdata (c.keys.headD [0, 0, 0, 0]) = some w ∧
        send c (.str sdata) =
          (.ok, { c with keys := c.keys.tail,
                         stream := drain (streamWrite c.stream w) })) ∧
    (c.«open» = true →
      ∃ w, writeFrame OP_BYTES bdata (c.keys.headD [0, 0, 0, 0]) = some w ∧
        send c (.bytes bdata) =
          (.ok, { c with keys := c.keys.tail,
                         stream := drain (streamWrite c.stream w) })) ∧
    (c.«open» = true → send c .other = (.typeError, c)) := by
  refine ⟨fun h p => ?_, fun h => ?_, fun h => ?_, fun h => ?_⟩
  · unfold send
    rw [h]
    rfl
  · obtain ⟨w, hw⟩ := writeFrame_some OP_TEXT sdata
      (c.keys.headD [0, 0, 0, 0]) hs
    refine ⟨w, hw, ?_⟩
    have hw2 : writeFrame OP_TEXT sdata (c.keys.head?.getD [0, 0, 0, 0]) =
        some w := by simpa using hw
    simp [send, writeFrameC, h, hw2, drain, streamWrite]
  · obtain ⟨w, hw⟩ := writeFrame_some OP_BYTES bdata
      (c.keys.headD [0, 0, 0, 0]) hb
    refine ⟨w, hw, ?_⟩
    have hw2 : writeFrame OP_BYTES bdata (c.keys.head?.getD [0, 0, 0, 0]) =
        some w := by simpa using hw
    simp [send, writeFrameC, h, hw2, drain, streamWrite]
  · unfold send
    rw [h]
    rfl

theorem C8_send_contract_witness :
    send { stream := { input := [], written := [], drains := 0,
                       closed := false },
           «open» := false, capacity := 5, keys := [] } (.str [104]) =
      (.ok, { stream := { input := [], written := [], drains := 0,
                          closed := false },
              «open» := false, capacity := 5, keys := [] }) ∧
    send { stream := { input := [], written := [], drains := 0,
                       closed := false },
           «open» := true, capacity := 5, keys := [] } .other =
      (.typeError, { stream := { input := [], written := [], drains := 0,
                                 closed := false },
                     «open» := true, capacity := 5, keys := [] }) := by
  have hcl := C8_send_contract
    { stream := { input := [], written := [], drains := 0, closed := false },
      «open» := false, capacity := 5, keys := [] } [104] [7]
    (by decide) (by decide)
  have hop := C8_send_contract
    { stream := { input := [], written := [], drains := 0, closed := false },
      «open» := true, capacity := 5, keys := [] } [104] [7]
    (by decide) (by decide)
  exact ⟨hcl.1 rfl (.str [104]), hop.2.2.2 rfl⟩

/-- Amended claim C5: a status line that does not start with
`HTTP/1.1 101 ` makes `connect` raise (`ProtocolError`) and never return a
session; the stream is handed back exactly as it was — in particular the
source does not release (close) it on this path. -/
theorem C5_handshake_rejection (s : Stream) (line : List Char) (cap : Nat)
    (keys : List (List Nat))
    (h : startswith line ("HTTP/1.1 101 ".toList) = false) :
    connectFinish s line cap keys = .protocolError s ∧
    ∀ c, connectFinish s line cap keys ≠ .session c := by
  unfold connectFinish
  rw [h]
  exact ⟨rfl, fun c hc => ConnectResult.noConfusion hc⟩

theorem C5_handshake_rejection_witness :
    connectFinish { input := [], written := [], drains := 0, closed := false }
      ("HTTP/1.1 404 Not Found".toList) 0 [] =
      .protocolError { input := [], written := [], drains := 0,
                       closed := false } :=
  (C5_handshake_rejection
    { input := [], written := [], drains := 0, closed := false }
    ("HTTP/1.1 404 Not Found".toList) 0 [] (by decide)).1

/-- Counterexample to claim C5 as stated: on the status line
`HTTP/1.1 404 Not Found` the connect step fails and never returns a
session, but the partially-opened connection is NOT released — the stream
comes back exactly as it went in, still with `closed = false` (the source
raises without closing the stream). -/
theorem C5_counterexample :
    connectFinish { input := [], written := [], drains := 0, closed := false }
      ("HTTP/1.1 404 Not Found".toList) 0 [] =
      .protocolError { input := [], written := [], drains := 0,
                       closed := false } ∧
    ({ input := [], written := [], drains := 0,
       closed := false } : Stream).closed = false :=
  ⟨rfl, rfl⟩

/-- Claim C3 refuted on the code (code bug): an interleaved PING between a
TEXT fragment (`fin = false`, payload "ab") and the final CONTINUATION
fragment (payload "cd") destroys the reassembly state.  Because the PING
is not `OP_CONT`, the loop resets `buf` and sets `popcode = OP_PING`, so
the following CONTINUATION inherits opcode PING: the engine answers the
PING (pong `[113]`, bytes `138, 129, 0, 0, 0, 0, 113` with a zero mask
key), then wrongly answers the CONTINUATION with a second PONG echoing
`[99, 100]`, and `recv` returns end-of-stream with no message instead of
the TEXT message `[97, 98, 99, 100]`. -/
theorem C3_ping_destroys_reassembly :
    recv 4 { stream := { input := serverFrame false OP_TEXT [97, 98] ++
                                    (serverFrame true OP_PING [113] ++
                                      serverFrame true OP_CONT [99, 100]),
                         written := [], drains := 0, closed := false },
             «open» := true, capacity := 10,
             keys := [[0, 0, 0, 0], [0, 0, 0, 0]] } =
      (.eos, { stream := { input := [],
                           written := [138, 129, 0, 0, 0, 0, 113,
                                       138, 130, 0, 0, 0, 0, 99, 100],
                           drains := 2, closed := false },
               «open» := false, capacity := 10, keys := [] }) := by
  decide

/-- Counterexample to claim C4 as stated: the peer sends CLOSE with code
1001 (payload `[3, 233]`), but the echoed CLOSE frame carries code 1000:
the written frame is header `136, 130`, a zero mask key, and payload
`[3, 232]` — and `un16 [3, 232] = 1000` while the peer's code was
`un16 [3, 233] = 1001`. -/
theorem C4_counterexample :
    (recv 1 { stream := { input := serverFrame true OP_CLOSE [3, 233],
                          written := [], drains := 0, closed := false },
              «open» := true, capacity := 9,
              keys := [[0, 0, 0, 0]] }).2.stream.written =
      [136, 130, 0, 0, 0, 0, 3, 232] ∧
    un16 [3, 232] = 1000 ∧ un16 [3, 233] = 1001 := by
  decide

end WS
